import Mathlib

/-!
Formal model of the mass face-recognition attendance workflow of the
CampusEase repository: the reconciliation of recognizer detections with a
class roster, the review-session state machine of
MassFaceRecognitionComponent, and the attendance persistence gateway with
its per-student upsert keyed by (student, date, subject, faculty).

Confidence scores are modelled as rationals: the code only compares them
and takes maxima, so the order structure is all that matters.
-/

/-- Attendance status, the three values allowed by the chk_status constraint
of the face_recognition_attendance table and by the Student interface of
MassFaceRecognitionComponent. -/
inductive Status
  | present
  | absent
  | late
deriving DecidableEq, Repr

/-- Source of an attendance decision, per the spec data model
(auto-detected vs manual). -/
inductive Source
  | autoDetected
  | manual
deriving DecidableEq, Repr

/-- Recognition method recorded on a persisted row, per the
recognition_method column and the marked_via field of Attendance.tsx. -/
inductive RecognitionMethod
  | face_recognition
  | manual
deriving DecidableEq, Repr

/-- Per-student failure reasons of the persistence gateway, per the spec
failure taxonomy. -/
inductive FailReason
  | conflict
  | rejected
  | unavailable
deriving DecidableEq, Repr

/-- A roster student as delivered by the roster provider: identifier,
display name, roll number (spec data model, and the student_records rows
read by Attendance.tsx). -/
structure Student where
  id : String
  name : String
  rollNo : String
deriving DecidableEq, Repr

/-- One face found in the submitted class photo: a bounding region (display
only), an optional matched student identifier, and a confidence score that
is only meaningful when the detection is matched. -/
structure Detection where
  region : String
  matchedId : Option String
  confidence : ℚ
deriving DecidableEq, Repr

/-- The per-student unit of truth produced by reconciliation. -/
structure AttendanceDecision where
  studentId : String
  status : Status
  source : Source
  confidence : Option ℚ
deriving DecidableEq, Repr

/-- Error raised by reconcile on an empty roster. -/
inductive ReconcileError
  | emptyRoster
deriving DecidableEq, Repr

/-- Default confidence threshold: 0.4, the similarity_threshold default
seeded by the schema (part_001) and the SIMILARITY_THRESHOLD setting of the
integration guide (part_000). -/
def defaultConfidenceThreshold : ℚ := 2 / 5

/-- Modelled from the spec: the FastAPI backend (face_recognition_api.py,
the /mass-recognition handler) is not in the repository, only its callers
and schema are. The confidences of all detections matched to a given
student identifier. -/
def confidencesFor (detections : List Detection) (sid : String) : List ℚ :=
  detections.filterMap fun d =>
    if d.matchedId = some sid then some d.confidence else none

/-- Modelled from the spec: the highest confidence among the detections
matched to a given student identifier, none when no detection matches
(duplicate-match resolution keeps only the highest-confidence candidate). -/
def bestConfidence (detections : List Detection) (sid : String) : Option ℚ :=
  match confidencesFor detections sid with
  | [] => none
  | c :: cs => some (cs.foldl max c)

/-- Modelled from the spec: the decision for one roster student. A student
whose best matched confidence clears the threshold is present with that
confidence; every other roster student defaults to absent with null
confidence. The comparison is threshold-or-above, not strictly above. -/
def decideFor (t : ℚ) (detections : List Detection) (s : Student) :
    AttendanceDecision :=
  match bestConfidence detections s.id with
  | some c =>
    if t ≤ c then
      { studentId := s.id, status := Status.present,
        source := Source.autoDetected, confidence := some c }
    else
      { studentId := s.id, status := Status.absent,
        source := Source.autoDetected, confidence := none }
  | none =>
    { studentId := s.id, status := Status.absent,
      source := Source.autoDetected, confidence := none }

/-- Modelled from the spec: reconcile(roster, detections, threshold) of the
reconciliation engine. Fails on an empty roster, otherwise emits exactly
one decision per roster student, in roster order; detections matched to
identifiers outside the roster contribute nothing. -/
def reconcile (roster : List Student) (detections : List Detection)
    (t : ℚ) : Except ReconcileError (List AttendanceDecision) :=
  match roster with
  | [] => Except.error ReconcileError.emptyRoster
  | s :: rest => Except.ok ((s :: rest).map (decideFor t detections))

/-- Key of the commit operation: the (class, date, subject, class-type,
faculty) tuple the review session is bound to. -/
structure CommitKey where
  classId : String
  date : String
  subject : String
  classType : String
  facultyId : String
  facultyName : String
deriving DecidableEq, Repr

/-- One persisted attendance row, with the columns of the
face_recognition_attendance table that the workflow writes. -/
structure Row where
  studentId : String
  date : String
  subject : String
  facultyId : String
  status : Status
  classId : String
  classType : String
  confidence : Option ℚ
  recognitionMethod : RecognitionMethod
deriving DecidableEq, Repr

/-- The upsert key of a row: (student_id, date, subject, marked_by), the
UNIQUE constraint of the face_recognition_attendance table (part_001). -/
def rowKey (r : Row) : String × String × String × String :=
  (r.studentId, r.date, r.subject, r.facultyId)

/-- The row a decision is persisted as under a commit key. -/
def rowOf (k : CommitKey) (d : AttendanceDecision) : Row :=
  { studentId := d.studentId, date := k.date, subject := k.subject,
    facultyId := k.facultyId, status := d.status, classId := k.classId,
    classType := k.classType, confidence := d.confidence,
    recognitionMethod :=
      match d.source with
      | Source.autoDetected => RecognitionMethod.face_recognition
      | Source.manual => RecognitionMethod.manual }

/-- Modelled from the spec: the upsert of the persistence gateway (the
/save-attendance backend handler is not in the repository). If a row with
the same key exists it is overwritten in place, otherwise the row is
appended; this mirrors the insert-then-update-on-conflict sequence of
markAttendance in Attendance.tsx against the UNIQUE constraint. -/
def upsertRow (store : List Row) (r : Row) : List Row :=
  if store.any fun x => decide (rowKey x = rowKey r) then
    store.map fun x => if rowKey x = rowKey r then r else x
  else
    store ++ [r]

/-- Applying the upsert of every decision of a list, in order. -/
def applyAll (k : CommitKey) (decisions : List AttendanceDecision)
    (store : List Row) : List Row :=
  decisions.foldl (fun st d => upsertRow st (rowOf k d)) store

/-- Aggregated outcome of a commit: the student ids whose writes succeeded
and the (student id, reason) pairs of the writes that failed. -/
structure CommitResult where
  succeeded : List String
  failed : List (String × FailReason)
deriving DecidableEq, Repr

/-- One step of the commit fold: the backing store answers each write
through the oracle; a successful write upserts the row, a failed write
leaves the store untouched and records the reason. -/
def commitStep (oracle : String → Option FailReason) (k : CommitKey)
    (acc : CommitResult × List Row) (d : AttendanceDecision) :
    CommitResult × List Row :=
  match oracle d.studentId with
  | none =>
    ({ succeeded := acc.1.succeeded ++ [d.studentId],
       failed := acc.1.failed }, upsertRow acc.2 (rowOf k d))
  | some r =>
    ({ succeeded := acc.1.succeeded,
       failed := acc.1.failed ++ [(d.studentId, r)] }, acc.2)

/-- Modelled from the spec: commit(decisions, key) of the attendance
persistence gateway. Every decision is attempted independently, in order;
outcomes are aggregated, one student never aborts the others. The oracle
gives the backing store response per student id (deterministic per call). -/
def commit (oracle : String → Option FailReason)
    (decisions : List AttendanceDecision) (k : CommitKey)
    (store : List Row) : CommitResult × List Row :=
  decisions.foldl (commitStep oracle k) ({ succeeded := [], failed := [] }, store)

/-- A store holds row r uniquely for its key: r is present and every row
with the same key equals r. -/
def uniquelyContains (store : List Row) (r : Row) : Prop :=
  r ∈ store ∧ ∀ x ∈ store, rowKey x = rowKey r → x = r

/-- One row of the review list of MassFaceRecognitionComponent (the Student
interface of part_002: id, name, confidence, status, detected flag). -/
structure StudentRow where
  student_id : String
  student_name : String
  confidence : ℚ
  status : Status
  detected : Bool
deriving DecidableEq, Repr

/-- updateStudentStatus of MassFaceRecognitionComponent (part_002): map
over the edited results, replacing the status of the row whose student_id
matches and leaving every other row untouched. -/
def updateStudentStatus (results : List StudentRow) (studentId : String)
    (newStatus : Status) : List StudentRow :=
  results.map fun student =>
    if student.student_id = studentId then
      { student with status := newStatus }
    else
      student

/-- The currentStep state of MassFaceRecognitionComponent. -/
inductive MassStep
  | upload
  | processing
  | review
  | saving
deriving DecidableEq, Repr

/-- The state of MassFaceRecognitionComponent that the save and cancel
paths touch: current step, the recognition results, the edited copy, the
error banner, the saving flag, and whether the modal was closed. -/
structure MassState where
  currentStep : MassStep
  attendanceResults : List StudentRow
  editedResults : List StudentRow
  error : Option String
  saving : Bool
  closed : Bool
deriving DecidableEq, Repr

/-- Outcome of the save-attendance POST as seen by the component: a
non-ok HTTP response (errorData.detail), an ok response with success set
to false (result.message), or success with a saved-records count. -/
inductive SaveOutcome
  | httpError (detail : String)
  | apiFailure (message : String)
  | success (savedRecords : Nat)
deriving DecidableEq, Repr

/-- Whether a save outcome is a failure (any path of the catch block). -/
def isFailureOutcome : SaveOutcome → Bool
  | SaveOutcome.httpError _ => true
  | SaveOutcome.apiFailure _ => true
  | SaveOutcome.success _ => false

/-- saveAttendance of MassFaceRecognitionComponent (part_002, lines
419-477): set saving and move to the saving step, clear the error; on
success notify the parent with the edited results and close; on any
failure set the error message, return to the review step and stay open.
The second component lists the onAttendanceSaved deliveries. -/
def saveAttendance (st : MassState) (outcome : SaveOutcome) :
    MassState × List (List StudentRow) :=
  let st1 := { st with saving := true, currentStep := MassStep.saving,
                       error := none }
  match outcome with
  | SaveOutcome.success _ =>
    ({ st1 with saving := false, closed := true }, [st.editedResults])
  | SaveOutcome.httpError d =>
    ({ st1 with currentStep := MassStep.review, error := some d,
                saving := false }, [])
  | SaveOutcome.apiFailure m =>
    ({ st1 with currentStep := MassStep.review, error := some m,
                saving := false }, [])

/-- The two session-ending user actions of the component: the close button
(part_002, lines 511-513) and the save button with its outcome. -/
inductive MassEvent
  | cancelClose
  | confirmSave (outcome : SaveOutcome)
deriving DecidableEq, Repr

/-- One component step. The second component lists the decision payloads
sent toward the persistence gateway: confirmSave posts the edited results,
the close button only closes the modal and posts nothing. -/
def massStep (st : MassState) (e : MassEvent) :
    MassState × List (List StudentRow) :=
  match e with
  | MassEvent.cancelClose => ({ st with closed := true }, [])
  | MassEvent.confirmSave outcome =>
    ((saveAttendance st outcome).1, [st.editedResults])

/-- Modelled from the spec: the decision the backend persists for one
review row (the /save-attendance handler is not in the repository): a
detected row keeps its confidence as an auto-detected decision, an
undetected row is a manual decision with null confidence. -/
def decisionOfStudentRow (s : StudentRow) : AttendanceDecision :=
  { studentId := s.student_id, status := s.status,
    source := if s.detected then Source.autoDetected else Source.manual,
    confidence := if s.detected then some s.confidence else none }

/-- Effect on the attendance store of a list of posted decision payloads:
each payload is committed through the gateway in order. -/
def applyRequests (oracle : String → Option FailReason) (k : CommitKey)
    (reqs : List (List StudentRow)) (store : List Row) : List Row :=
  reqs.foldl (fun st req => (commit oracle (req.map decisionOfStudentRow) k st).2) store

/-- Error codes the attendance writes of Attendance.tsx distinguish:
23505 (unique violation) against everything else. -/
inductive SbErrorCode
  | uniqueViolation
  | otherError
deriving DecidableEq, Repr

/-- Database operations issued by one markAttendance call. -/
inductive DbOp
  | insertAttempt
  | updateAttempt
  | selectCheck
deriving DecidableEq, Repr

/-- markAttendance of Attendance.tsx (lines 303-430), write path only:
with a record already in local state it updates; otherwise it inserts,
and when the insert fails with code 23505 it retries exactly once as an
update of the existing row; any error that still escapes falls to the
catch block, which re-reads the row and reports success only if the read
finds it. Returns the operation trace and the reported success. -/
def markAttendance (hasLocalRecord : Bool) (updateErr : Bool)
    (insertErr : Option SbErrorCode) (retryUpdateErr : Bool)
    (checkFound : Bool) : List DbOp × Bool :=
  if hasLocalRecord then
    if updateErr then ([DbOp.updateAttempt, DbOp.selectCheck], checkFound)
    else ([DbOp.updateAttempt], true)
  else
    match insertErr with
    | none => ([DbOp.insertAttempt], true)
    | some SbErrorCode.uniqueViolation =>
      if retryUpdateErr then
        ([DbOp.insertAttempt, DbOp.updateAttempt, DbOp.selectCheck], checkFound)
      else
        ([DbOp.insertAttempt, DbOp.updateAttempt], true)
    | some SbErrorCode.otherError =>
      ([DbOp.insertAttempt, DbOp.selectCheck], checkFound)

/-- A student_records row as read by Attendance.tsx (the fields the face
recognition result conversion touches). -/
structure StudentRecord where
  user_id : String
  fname : String
  lname : String
  roll_no : String
  department : String
deriving DecidableEq, Repr

/-- One entry of the results array handed to handleFaceRecognitionResults;
the confidence may be absent in the JSON payload. -/
structure RecogResult where
  student_id : String
  student_name : String
  confidence : Option ℚ
  status : Status
deriving DecidableEq, Repr

/-- The attendance record built by handleFaceRecognitionResults. -/
structure SavedAttendanceRecord where
  user_id : String
  class_id : String
  student_name : String
  roll_no : String
  department : String
  date : String
  subject : String
  class_type : String
  status : Status
  marked_by : String
  faculty_name : String
  face_recognition_confidence : Option ℚ
  marked_via : RecognitionMethod
deriving DecidableEq, Repr

/-- The marking context of the Attendance page when the face recognition
modal returns: the loaded students and the selected class, date, subject,
class type and faculty. -/
structure MarkingContext where
  students : List StudentRecord
  classId : String
  classDepartment : String
  date : String
  subject : String
  classType : String
  facultyId : String
  facultyName : String
deriving Repr

/-- JavaScript truthiness fallback for strings: a || b is b when a is the
empty string. -/
def jsOr (a b : String) : String :=
  if a = "" then b else a

/-- The comparison result.confidence > 0 of Attendance.tsx line 587 under
JavaScript semantics: a missing (null) confidence compares false. -/
def jsGtZero : Option ℚ → Bool
  | none => false
  | some c => decide (0 < c)

/-- Conversion of one recognition result into an attendance record, per
handleFaceRecognitionResults of Attendance.tsx (lines 570-591): the roster
row is looked up for roll number and department, and marked_via is
face_recognition exactly when the confidence compares greater than zero. -/
def convertResult (ctx : MarkingContext) (result : RecogResult) :
    SavedAttendanceRecord :=
  let student := ctx.students.find? fun s => s.user_id == result.student_id
  { user_id := result.student_id,
    class_id := ctx.classId,
    student_name := result.student_name,
    roll_no := (student.map StudentRecord.roll_no).getD "",
    department :=
      jsOr ((student.map StudentRecord.department).getD "") ctx.classDepartment,
    date := ctx.date,
    subject := ctx.subject,
    class_type := ctx.classType,
    status := result.status,
    marked_by := ctx.facultyId,
    faculty_name := ctx.facultyName,
    face_recognition_confidence := result.confidence,
    marked_via :=
      if jsGtZero result.confidence then RecognitionMethod.face_recognition
      else RecognitionMethod.manual }

/-- handleFaceRecognitionResults of Attendance.tsx: convert every result. -/
def handleFaceRecognitionResults (ctx : MarkingContext)
    (results : List RecogResult) : List SavedAttendanceRecord :=
  results.map (convertResult ctx)

/-- A backing-store behavior that rejects exactly one student id and
accepts every other write: the single-Rejected scenario of the spec
failure taxonomy. -/
def rejectOnly (sid : String) : String → Option FailReason :=
  fun x => if x = sid then some FailReason.rejected else none

/-- Sample roster student used by concrete witnesses. -/
def sampleStudent : Student :=
  { id := "24DIT001", name := "Asha Rao", rollNo := "24DIT001" }

/-- Second sample roster student used by concrete witnesses. -/
def sampleStudentB : Student :=
  { id := "24DIT002", name := "Bela Shah", rollNo := "24DIT002" }

/-- Sample review row used by concrete witnesses. -/
def sampleRowA : StudentRow :=
  { student_id := "24DIT001", student_name := "Asha Rao",
    confidence := 3 / 5, status := Status.present, detected := true }

/-- Second sample review row used by concrete witnesses. -/
def sampleRowB : StudentRow :=
  { student_id := "24DIT002", student_name := "Bela Shah",
    confidence := 0, status := Status.absent, detected := false }

/-- Sample component state in the review step, used by concrete witnesses. -/
def sampleMassState : MassState :=
  { currentStep := MassStep.review,
    attendanceResults := [sampleRowA, sampleRowB],
    editedResults := [sampleRowA, sampleRowB],
    error := none, saving := false, closed := false }

/-- Sample commit key used by concrete witnesses. -/
def sampleKey : CommitKey :=
  { classId := "24DIT", date := "2025-01-15", subject := "Data Structures",
    classType := "Theory", facultyId := "FAC01", facultyName := "Prof Mehta" }

/-- Sample decision used by concrete witnesses. -/
def sampleDecisionA : AttendanceDecision :=
  { studentId := "24DIT001", status := Status.present,
    source := Source.autoDetected, confidence := some (3 / 5) }

/-- Second sample decision used by concrete witnesses. -/
def sampleDecisionB : AttendanceDecision :=
  { studentId := "24DIT002", status := Status.absent,
    source := Source.autoDetected, confidence := none }

/-- Third sample decision used by concrete witnesses. -/
def sampleDecisionC : AttendanceDecision :=
  { studentId := "24DIT003", status := Status.late,
    source := Source.manual, confidence := none }

/-- Sample marking context used by concrete witnesses. -/
def sampleContext : MarkingContext :=
  { students := [{ user_id := "24DIT001", fname := "Asha", lname := "Rao",
                   roll_no := "24DIT001", department := "IT" }],
    classId := "24DIT", classDepartment := "IT", date := "2025-01-15",
    subject := "Data Structures", classType := "Theory",
    facultyId := "FAC01", facultyName := "Prof Mehta" }

/-- Sample recognition results used by concrete witnesses. -/
def sampleRecogResults : List RecogResult :=
  [{ student_id := "24DIT001", student_name := "Asha Rao",
     confidence := some (9 / 10), status := Status.present },
   { student_id := "24DIT002", student_name := "Bela Shah",
     confidence := some 0, status := Status.absent }]

/-- Sample detection pair used by concrete witnesses: two detections for
the same student with confidences 0.6 and 0.8. -/
def sampleDetections : List Detection :=
  [{ region := "face1", matchedId := some "24DIT001", confidence := 3 / 5 },
   { region := "face2", matchedId := some "24DIT001", confidence := 4 / 5 }]

/-! Helper lemmas. -/

theorem decideFor_studentId (t : ℚ) (D : List Detection) (s : Student) :
    (decideFor t D s).studentId = s.id := by
  cases h : bestConfidence D s.id with
  | none => simp [decideFor, h]
  | some c => by_cases h2 : t ≤ c <;> simp [decideFor, h, h2]

theorem countP_id_eq_one (roster : List Student) (s : Student)
    (hnd : (roster.map Student.id).Nodup) (hs : s ∈ roster) :
    roster.countP (fun x => x.id == s.id) = 1 := by
  induction roster with
  | nil => cases hs
  | cons a l ih =>
    rw [List.map_cons, List.nodup_cons] at hnd
    rcases List.mem_cons.mp hs with rfl | hsl
    · have hz : l.countP (fun x => x.id == s.id) = 0 := by
        rw [List.countP_eq_zero]
        intro x hx hbeq
        exact hnd.1 (by
          have : x.id = s.id := by simpa using hbeq
          rw [← this]
          exact List.mem_map_of_mem Student.id hx)
      rw [List.countP_cons]
      simp [hz]
    · have hne : a.id ≠ s.id := by
        intro he
        exact hnd.1 (he ▸ List.mem_map_of_mem Student.id hsl)
      rw [List.countP_cons]
      simp [hne, ih hnd.2 hsl]

/-! Claim theorems. -/

/-- Claim C4: in reconcile, a detection whose confidence is exactly the
confidence threshold counts as a match and yields a present decision,
while a detection with confidence strictly below the threshold does not:
the comparison is threshold-or-above, not strictly-above. -/
theorem reconcile_threshold_boundary (t c : ℚ) (s : Student) (r1 r2 : String)
    (hlt : c < t) :
    reconcile [s] [{ region := r1, matchedId := some s.id, confidence := t }] t
      = Except.ok [{ studentId := s.id, status := Status.present,
                     source := Source.autoDetected, confidence := some t }] ∧
    reconcile [s] [{ region := r2, matchedId := some s.id, confidence := c }] t
      = Except.ok [{ studentId := s.id, status := Status.absent,
                     source := Source.autoDetected, confidence := none }] := by
  constructor
  · simp [reconcile, decideFor, bestConfidence, confidencesFor]
  · simp [reconcile, decideFor, bestConfidence, confidencesFor,
      not_le.mpr hlt]

/-- Witness for C4 at the default threshold 0.4 with confidences 0.4
(boundary, present) and 0.2 (below, absent). -/
theorem reconcile_threshold_boundary_witness :
    reconcile [sampleStudent]
        [{ region := "r1", matchedId := some sampleStudent.id,
           confidence := defaultConfidenceThreshold }]
        defaultConfidenceThreshold
      = Except.ok [{ studentId := sampleStudent.id,
                     status := Status.present,
                     source := Source.autoDetected,
                     confidence := some defaultConfidenceThreshold }] ∧
    reconcile [sampleStudent]
        [{ region := "r2", matchedId := some sampleStudent.id,
           confidence := 1 / 5 }] defaultConfidenceThreshold
      = Except.ok [{ studentId := sampleStudent.id, status := Status.absent,
                     source := Source.autoDetected, confidence := none }] :=
  reconcile_threshold_boundary defaultConfidenceThreshold (1 / 5)
    sampleStudent "r1" "r2" (by norm_num [defaultConfidenceThreshold])

/-- Claim C6: the manual edit updateStudentStatus never adds or removes
rows; the result has the same students in the same order, every row whose
student id differs from the edited one is unchanged, and a matching row
only has its status field replaced. -/
theorem updateStudentStatus_frame (results : List StudentRow)
    (studentId : String) (newStatus : Status) (i : Nat)
    (hi : i < results.length)
    (hi2 : i < (updateStudentStatus results studentId newStatus).length) :
    (updateStudentStatus results studentId newStatus).length
      = results.length ∧
    (updateStudentStatus results studentId newStatus).map
        StudentRow.student_id
      = results.map StudentRow.student_id ∧
    (results[i].student_id ≠ studentId →
      (updateStudentStatus results studentId newStatus)[i] = results[i]) ∧
    (results[i].student_id = studentId →
      (updateStudentStatus results studentId newStatus)[i]
        = { results[i] with status := newStatus }) := by
  refine ⟨by simp [updateStudentStatus], ?_, ?_, ?_⟩
  · rw [updateStudentStatus, List.map_map]
    refine List.map_congr_left ?_
    intro a _
    by_cases h : a.student_id = studentId <;> simp [h]
  · intro h
    simp [updateStudentStatus, h]
  · intro h
    simp [updateStudentStatus, h]

/-- Witness for C6 on a two-row list, editing the first student. -/
theorem updateStudentStatus_frame_witness :
    (updateStudentStatus [sampleRowA, sampleRowB] "24DIT001"
        Status.late).length = [sampleRowA, sampleRowB].length ∧
    (updateStudentStatus [sampleRowA, sampleRowB] "24DIT001"
        Status.late).map StudentRow.student_id
      = [sampleRowA, sampleRowB].map StudentRow.student_id ∧
    ([sampleRowA, sampleRowB][0].student_id ≠ "24DIT001" →
      (updateStudentStatus [sampleRowA, sampleRowB] "24DIT001" Status.late)[0]
        = [sampleRowA, sampleRowB][0]) ∧
    ([sampleRowA, sampleRowB][0].student_id = "24DIT001" →
      (updateStudentStatus [sampleRowA, sampleRowB] "24DIT001" Status.late)[0]
        = { [sampleRowA, sampleRowB][0] with status := Status.late }) :=
  updateStudentStatus_frame [sampleRowA, sampleRowB] "24DIT001"
    Status.late 0 (by decide) (by decide)

/-- Claim C7: when the insert of markAttendance fails with the duplicate
key error code 23505, the write is retried exactly once as an update of
the existing row; with the retry also failing and the defensive re-read
finding nothing, the call reports failure, with no further write attempt. -/
theorem markAttendance_conflict_retries_once (retryUpdateErr checkFound : Bool)
    (h1 : retryUpdateErr = true) (h2 : checkFound = false) :
    (markAttendance false false (some SbErrorCode.uniqueViolation)
        retryUpdateErr checkFound).1.count DbOp.updateAttempt = 1 ∧
    (markAttendance false false (some SbErrorCode.uniqueViolation)
        retryUpdateErr checkFound).1.count DbOp.insertAttempt = 1 ∧
    (markAttendance false false (some SbErrorCode.uniqueViolation)
        retryUpdateErr checkFound).2 = false := by
  subst h1 h2
  decide

/-- Witness for C7 with the retry failing and the re-read empty. -/
theorem markAttendance_conflict_retries_once_witness :
    (markAttendance false false (some SbErrorCode.uniqueViolation)
        true false).1.count DbOp.updateAttempt = 1 ∧
    (markAttendance false false (some SbErrorCode.uniqueViolation)
        true false).1.count DbOp.insertAttempt = 1 ∧
    (markAttendance false false (some SbErrorCode.uniqueViolation)
        true false).2 = false :=
  markAttendance_conflict_retries_once true false rfl rfl

/-- Claim C8: on any persistence failure, saveAttendance returns the
component to the review step with the recognition results and the edited
decision list intact, the failure flagged in the error banner, and the
session left open (onClose is only invoked on success), so the save can be
retried without re-running recognition. -/
theorem saveAttendance_failure_returns_to_review (st : MassState)
    (outcome : SaveOutcome) (hfail : isFailureOutcome outcome = true) :
    (saveAttendance st outcome).1.currentStep = MassStep.review ∧
    (saveAttendance st outcome).1.editedResults = st.editedResults ∧
    (saveAttendance st outcome).1.attendanceResults = st.attendanceResults ∧
    (saveAttendance st outcome).1.closed = st.closed ∧
    (saveAttendance st outcome).1.error ≠ none ∧
    (saveAttendance st outcome).1.saving = false ∧
    (saveAttendance st outcome).2 = [] := by
  cases outcome with
  | httpError d => simp [saveAttendance]
  | apiFailure m => simp [saveAttendance]
  | success n => simp [isFailureOutcome] at hfail

/-- Witness for C8: a failed save from the sample review state. -/
theorem saveAttendance_failure_returns_to_review_witness :
    (saveAttendance sampleMassState
        (SaveOutcome.httpError "Failed to save attendance")).1.currentStep
      = MassStep.review ∧
    (saveAttendance sampleMassState
        (SaveOutcome.httpError "Failed to save attendance")).1.editedResults
      = sampleMassState.editedResults ∧
    (saveAttendance sampleMassState
        (SaveOutcome.httpError "Failed to save attendance")).1.attendanceResults
      = sampleMassState.attendanceResults ∧
    (saveAttendance sampleMassState
        (SaveOutcome.httpError "Failed to save attendance")).1.closed
      = sampleMassState.closed ∧
    (saveAttendance sampleMassState
        (SaveOutcome.httpError "Failed to save attendance")).1.error ≠ none ∧
    (saveAttendance sampleMassState
        (SaveOutcome.httpError "Failed to save attendance")).1.saving
      = false ∧
    (saveAttendance sampleMassState
        (SaveOutcome.httpError "Failed to save attendance")).2 = [] :=
  saveAttendance_failure_returns_to_review sampleMassState
    (SaveOutcome.httpError "Failed to save attendance") rfl

/-- Claim C9: a cancel issued while the component is in the review step
never triggers commit: the modal closes, no payload is posted toward the
persistence gateway, and the attendance store is left untouched. -/
theorem cancel_never_commits (st : MassState)
    (o : String → Option FailReason) (k : CommitKey) (store : List Row)
    (_hrev : st.currentStep = MassStep.review) :
    (massStep st MassEvent.cancelClose).2 = [] ∧
    (massStep st MassEvent.cancelClose).1.closed = true ∧
    applyRequests o k (massStep st MassEvent.cancelClose).2 store = store := by
  exact ⟨rfl, rfl, rfl⟩

/-- Witness for C9: cancelling the sample review-state session. -/
theorem cancel_never_commits_witness :
    (massStep sampleMassState MassEvent.cancelClose).2 = [] ∧
    (massStep sampleMassState MassEvent.cancelClose).1.closed = true ∧
    applyRequests (fun _ => none) sampleKey
        (massStep sampleMassState MassEvent.cancelClose).2 [] = [] :=
  cancel_never_commits sampleMassState (fun _ => none) sampleKey [] rfl

/-- Claim C10: handleFaceRecognitionResults records marked_via as
face_recognition exactly when the result confidence compares greater than
zero under JavaScript semantics, and that comparison is true exactly for a
strictly positive confidence; a zero or missing confidence yields manual. -/
theorem handleFaceRecognitionResults_marked_via (ctx : MarkingContext)
    (results : List RecogResult) (i : Nat) (c : ℚ)
    (hi : i < results.length)
    (h2 : i < (handleFaceRecognitionResults ctx results).length) :
    ((handleFaceRecognitionResults ctx results)[i].marked_via
        = RecognitionMethod.face_recognition
      ↔ jsGtZero results[i].confidence = true) ∧
    (jsGtZero (some c) = true ↔ 0 < c) ∧
    jsGtZero none = false ∧
    jsGtZero (some (0 : ℚ)) = false := by
  refine ⟨?_, by simp [jsGtZero], rfl, by simp [jsGtZero]⟩
  by_cases h : jsGtZero results[i].confidence = true
  · simp [handleFaceRecognitionResults, convertResult, h]
  · simp [handleFaceRecognitionResults, convertResult, h,
      Bool.not_eq_true _ ▸ h]

/-- Witness for C10 on a two-result list: confidence 0.9 at index zero. -/
theorem handleFaceRecognitionResults_marked_via_witness :
    ((handleFaceRecognitionResults sampleContext
        sampleRecogResults)[0].marked_via
        = RecognitionMethod.face_recognition
      ↔ jsGtZero sampleRecogResults[0].confidence = true) ∧
    (jsGtZero (some ((9 : ℚ) / 10)) = true ↔ 0 < (9 : ℚ) / 10) ∧
    jsGtZero none = false ∧
    jsGtZero (some (0 : ℚ)) = false :=
  handleFaceRecognitionResults_marked_via sampleContext sampleRecogResults
    0 (9 / 10) (by decide) (by decide)

/-- Claim C1: for a non-empty roster, reconcile succeeds and returns
exactly one decision per roster student, in roster order, for every
detection list and threshold: same length, same identifiers in the same
order, and exactly one decision carrying each roster identifier. -/
theorem reconcile_coverage (roster : List Student)
    (detections : List Detection) (t : ℚ) (s : Student)
    (hne : roster ≠ []) (hnd : (roster.map Student.id).Nodup)
    (hs : s ∈ roster) :
    reconcile roster detections t
      = Except.ok (roster.map (decideFor t detections)) ∧
    (roster.map (decideFor t detections)).length = roster.length ∧
    (roster.map (decideFor t detections)).map AttendanceDecision.studentId
      = roster.map Student.id ∧
    (roster.map (decideFor t detections)).countP
        (fun d => d.studentId == s.id) = 1 := by
  obtain ⟨a, l, rfl⟩ : ∃ a l, roster = a :: l := by
    cases roster with
    | nil => exact absurd rfl hne
    | cons a l => exact ⟨a, l, rfl⟩
  refine ⟨rfl, by simp, ?_, ?_⟩
  · rw [List.map_map]
    exact List.map_congr_left fun x _ => decideFor_studentId t detections x
  · rw [List.countP_map]
    have h2 : ∀ x ∈ (a :: l),
        ((decideFor t detections x).studentId == s.id) = (x.id == s.id) := by
      intro x _
      rw [decideFor_studentId]
    calc ((a :: l).countP fun x => (decideFor t detections x).studentId == s.id)
        = (a :: l).countP fun x => x.id == s.id :=
          List.countP_congr fun x hx => by rw [h2 x hx]
      _ = 1 := countP_id_eq_one (a :: l) s hnd hs

/-- Witness for C1: a two-student roster against a detection list holding
a qualifying match for the first student and an unknown identifier. -/
theorem reconcile_coverage_witness :
    reconcile [sampleStudent, sampleStudentB]
        [{ region := "r1", matchedId := some "24DIT001",
           confidence := 3 / 5 },
         { region := "r2", matchedId := some "UNKNOWN", confidence := 1 }]
        defaultConfidenceThreshold
      = Except.ok ([sampleStudent, sampleStudentB].map
          (decideFor defaultConfidenceThreshold
            [{ region := "r1", matchedId := some "24DIT001",
               confidence := 3 / 5 },
             { region := "r2", matchedId := some "UNKNOWN",
               confidence := 1 }])) ∧
    ([sampleStudent, sampleStudentB].map
        (decideFor defaultConfidenceThreshold
          [{ region := "r1", matchedId := some "24DIT001",
             confidence := 3 / 5 },
           { region := "r2", matchedId := some "UNKNOWN",
             confidence := 1 }])).length
      = [sampleStudent, sampleStudentB].length ∧
    ([sampleStudent, sampleStudentB].map
        (decideFor defaultConfidenceThreshold
          [{ region := "r1", matchedId := some "24DIT001",
             confidence := 3 / 5 },
           { region := "r2", matchedId := some "UNKNOWN",
             confidence := 1 }])).map AttendanceDecision.studentId
      = [sampleStudent, sampleStudentB].map Student.id ∧
    ([sampleStudent, sampleStudentB].map
        (decideFor defaultConfidenceThreshold
          [{ region := "r1", matchedId := some "24DIT001",
             confidence := 3 / 5 },
           { region := "r2", matchedId := some "UNKNOWN",
             confidence := 1 }])).countP
        (fun d => d.studentId == sampleStudentB.id) = 1 :=
  reconcile_coverage [sampleStudent, sampleStudentB]
    [{ region := "r1", matchedId := some "24DIT001", confidence := 3 / 5 },
     { region := "r2", matchedId := some "UNKNOWN", confidence := 1 }]
    defaultConfidenceThreshold sampleStudentB (by simp)
    (by simp [sampleStudent, sampleStudentB]) (by simp)

theorem init_le_foldl_max (cs : List ℚ) (b : ℚ) : b ≤ cs.foldl max b := by
  induction cs generalizing b with
  | nil => exact le_refl b
  | cons c cs ih =>
    rw [List.foldl_cons]
    exact le_trans (le_max_left b c) (ih (max b c))

theorem mem_le_foldl_max (cs : List ℚ) (b x : ℚ) :
    x ∈ cs → x ≤ cs.foldl max b := by
  induction cs generalizing b with
  | nil => intro hx; cases hx
  | cons c cs ih =>
    intro hx
    rw [List.foldl_cons]
    rcases List.mem_cons.mp hx with rfl | h
    · exact le_trans (le_max_right b x) (init_le_foldl_max cs (max b x))
    · exact ih (max b c) h

theorem foldl_max_mem (cs : List ℚ) (b : ℚ) :
    cs.foldl max b = b ∨ cs.foldl max b ∈ cs := by
  induction cs generalizing b with
  | nil => exact Or.inl rfl
  | cons c cs ih =>
    rw [List.foldl_cons]
    rcases ih (max b c) with he | hm
    · rw [he]
      rcases max_choice b c with h1 | h1
      · exact Or.inl h1
      · rw [h1]
        exact Or.inr (List.mem_cons_self c cs)
    · exact Or.inr (List.mem_cons_of_mem c hm)

theorem bestConfidence_spec (D : List Detection) (sid : String) (c : ℚ)
    (h : bestConfidence D sid = some c) :
    c ∈ confidencesFor D sid ∧ ∀ x ∈ confidencesFor D sid, x ≤ c := by
  rw [bestConfidence] at h
  cases hc : confidencesFor D sid with
  | nil =>
    rw [hc] at h
    cases h
  | cons c0 cs =>
    rw [hc] at h
    have hce : cs.foldl max c0 = c := by
      simpa using h
    constructor
    · rw [← hce]
      rcases foldl_max_mem cs c0 with he | hm
      · rw [he]
        exact List.mem_cons_self c0 cs
      · exact List.mem_cons_of_mem c0 hm
    · intro x hx
      rw [← hce]
      rcases List.mem_cons.mp hx with rfl | hxs
      · exact init_le_foldl_max cs x
      · exact mem_le_foldl_max cs c0 x hxs

theorem mem_confidencesFor (D : List Detection) (sid : String) (x : ℚ) :
    x ∈ confidencesFor D sid
      ↔ ∃ d ∈ D, d.matchedId = some sid ∧ d.confidence = x := by
  simp [confidencesFor, List.mem_filterMap]

/-- Claim C5: when several detections match the same roster student,
reconcile keeps only the highest-confidence one: every confidence matched
to the student is bounded by the best one, the best one is carried by some
matched detection, and the resulting decision for the student is present
with exactly that maximum confidence. -/
theorem reconcile_duplicate_match (roster : List Student)
    (detections : List Detection) (t : ℚ) (s : Student) (c x : ℚ)
    (hs : s ∈ roster) (hbest : bestConfidence detections s.id = some c)
    (ht : t ≤ c) (hx : x ∈ confidencesFor detections s.id) :
    x ≤ c ∧
    c ∈ confidencesFor detections s.id ∧
    reconcile roster detections t
      = Except.ok (roster.map (decideFor t detections)) ∧
    ({ studentId := s.id, status := Status.present,
       source := Source.autoDetected,
       confidence := some c } : AttendanceDecision)
      ∈ roster.map (decideFor t detections) := by
  obtain ⟨hmem, hmax⟩ := bestConfidence_spec detections s.id c hbest
  refine ⟨hmax x hx, hmem, ?_, ?_⟩
  · cases roster with
    | nil => cases hs
    | cons a l => rfl
  · have hdec : decideFor t detections s
        = { studentId := s.id, status := Status.present,
            source := Source.autoDetected, confidence := some c } := by
      simp [decideFor, hbest, ht]
    rw [← hdec]
    exact List.mem_map_of_mem (decideFor t detections) hs

/-- Witness for C5: one student matched by two detections with confidences
0.6 and 0.8; the decision carries 0.8. -/
theorem reconcile_duplicate_match_witness :
    (3 : ℚ) / 5 ≤ 4 / 5 ∧
    (4 : ℚ) / 5 ∈ confidencesFor sampleDetections sampleStudent.id ∧
    reconcile [sampleStudent] sampleDetections defaultConfidenceThreshold
      = Except.ok ([sampleStudent].map
          (decideFor defaultConfidenceThreshold sampleDetections)) ∧
    ({ studentId := sampleStudent.id, status := Status.present,
       source := Source.autoDetected,
       confidence := some (4 / 5) } : AttendanceDecision)
      ∈ [sampleStudent].map
          (decideFor defaultConfidenceThreshold sampleDetections) :=
  reconcile_duplicate_match [sampleStudent] sampleDetections
    defaultConfidenceThreshold sampleStudent (4 / 5) (3 / 5)
    (by simp)
    (by
      have hconf : confidencesFor sampleDetections sampleStudent.id
          = [3 / 5, 4 / 5] := by
        simp [confidencesFor, sampleDetections, sampleStudent]
      rw [bestConfidence, hconf]
      show some (List.foldl max (3 / 5) [4 / 5]) = some ((4 : ℚ) / 5)
      rw [List.foldl_cons, List.foldl_nil, max_eq_right (by norm_num)])
    (by norm_num [defaultConfidenceThreshold])
    (by
      have hconf : confidencesFor sampleDetections sampleStudent.id
          = [3 / 5, 4 / 5] := by
        simp [confidencesFor, sampleDetections, sampleStudent]
      rw [hconf]
      norm_num)

theorem rowKey_rowOf (k : CommitKey) (d : AttendanceDecision) :
    rowKey (rowOf k d) = (d.studentId, k.date, k.subject, k.facultyId) := rfl

theorem upsertRow_of_uniquelyContains (s : List Row) (r : Row)
    (h : uniquelyContains s r) : upsertRow s r = s := by
  obtain ⟨hmem, huniq⟩ := h
  have hany : (s.any fun x => decide (rowKey x = rowKey r)) = true := by
    rw [List.any_eq_true]
    exact ⟨r, hmem, by simp⟩
  rw [upsertRow, if_pos hany]
  have hfix : ∀ x ∈ s, (if rowKey x = rowKey r then r else x) = id x := by
    intro x hx
    by_cases hk : rowKey x = rowKey r
    · rw [if_pos hk, huniq x hx hk]
      rfl
    · rw [if_neg hk]
      rfl
  rw [List.map_congr_left hfix, List.map_id]

theorem uniquelyContains_upsertRow (s : List Row) (r : Row) :
    uniquelyContains (upsertRow s r) r := by
  rw [upsertRow]
  by_cases hany : (s.any fun x => decide (rowKey x = rowKey r)) = true
  · rw [if_pos hany]
    rw [List.any_eq_true] at hany
    obtain ⟨x0, hx0, hk0b⟩ := hany
    have hk0 : rowKey x0 = rowKey r := by simpa using hk0b
    constructor
    · refine List.mem_map.mpr ⟨x0, hx0, ?_⟩
      rw [if_pos hk0]
    · intro x hx hkx
      obtain ⟨a, ha, rfl⟩ := List.mem_map.mp hx
      by_cases hka : rowKey a = rowKey r
      · rw [if_pos hka]
      · rw [if_neg hka] at hkx ⊢
        exact absurd hkx hka
  · rw [if_neg hany]
    rw [Bool.not_eq_true, List.any_eq_false] at hany
    constructor
    · simp
    · intro x hx hkx
      rcases List.mem_append.mp hx with hxs | hxr
      · exact absurd hkx (by simpa using hany x hxs)
      · simpa using hxr

theorem uniquelyContains_upsertRow_ne (s : List Row) (r r2 : Row)
    (hne : rowKey r2 ≠ rowKey r) (h : uniquelyContains s r) :
    uniquelyContains (upsertRow s r2) r := by
  obtain ⟨hmem, huniq⟩ := h
  rw [upsertRow]
  by_cases hany : (s.any fun x => decide (rowKey x = rowKey r2)) = true
  · rw [if_pos hany]
    constructor
    · refine List.mem_map.mpr ⟨r, hmem, ?_⟩
      rw [if_neg fun hk => hne hk.symm]
    · intro x hx hkx
      obtain ⟨a, ha, rfl⟩ := List.mem_map.mp hx
      by_cases hka : rowKey a = rowKey r2
      · rw [if_pos hka] at hkx ⊢
        exact absurd hkx hne
      · rw [if_neg hka] at hkx ⊢
        exact huniq a ha hkx
  · rw [if_neg hany]
    constructor
    · exact List.mem_append_left _ hmem
    · intro x hx hkx
      rcases List.mem_append.mp hx with hxs | hxr
      · exact huniq x hxs hkx
      · have hxe : x = r2 := by simpa using hxr
        subst hxe
        exact absurd hkx hne

theorem applyAll_cons (k : CommitKey) (d : AttendanceDecision)
    (L : List AttendanceDecision) (s : List Row) :
    applyAll k (d :: L) s = applyAll k L (upsertRow s (rowOf k d)) := rfl

theorem applyAll_preserve (k : CommitKey) (M : List AttendanceDecision)
    (s : List Row) (r : Row)
    (hk : ∀ d ∈ M, rowKey (rowOf k d) ≠ rowKey r)
    (h : uniquelyContains s r) : uniquelyContains (applyAll k M s) r := by
  induction M generalizing s with
  | nil => exact h
  | cons d M ih =>
    rw [applyAll_cons]
    exact ih _ (fun d2 hd2 => hk d2 (List.mem_cons_of_mem d hd2))
      (uniquelyContains_upsertRow_ne s r (rowOf k d)
        (hk d (List.mem_cons_self d M)) h)

theorem applyAll_uniquelyContains (k : CommitKey)
    (M : List AttendanceDecision) (s : List Row)
    (hnd : (M.map AttendanceDecision.studentId).Nodup) :
    ∀ d ∈ M, uniquelyContains (applyAll k M s) (rowOf k d) := by
  induction M generalizing s with
  | nil =>
    intro d hd
    cases hd
  | cons d0 M ih =>
    rw [List.map_cons, List.nodup_cons] at hnd
    intro d hd
    rcases List.mem_cons.mp hd with rfl | hdM
    · rw [applyAll_cons]
      refine applyAll_preserve k M _ _ ?_ (uniquelyContains_upsertRow s (rowOf k d))
      intro d2 hd2 hkeq
      apply hnd.1
      have hid : d2.studentId = d.studentId := congrArg Prod.fst hkeq
      rw [← hid]
      exact List.mem_map_of_mem AttendanceDecision.studentId hd2
    · rw [applyAll_cons]
      exact ih _ hnd.2 d hdM

theorem applyAll_of_unique (k : CommitKey) (M : List AttendanceDecision)
    (S : List Row) (h : ∀ d ∈ M, uniquelyContains S (rowOf k d)) :
    applyAll k M S = S := by
  induction M with
  | nil => rfl
  | cons d M ih =>
    rw [applyAll_cons,
      upsertRow_of_uniquelyContains S (rowOf k d) (h d (List.mem_cons_self d M))]
    exact ih fun d2 hd2 => h d2 (List.mem_cons_of_mem d hd2)

theorem applyAll_idem (k : CommitKey) (M : List AttendanceDecision)
    (s : List Row) (hnd : (M.map AttendanceDecision.studentId).Nodup) :
    applyAll k M (applyAll k M s) = applyAll k M s :=
  applyAll_of_unique k M _ (applyAll_uniquelyContains k M s hnd)

theorem nodup_rowKey_upsertRow (s : List Row) (r : Row)
    (h : (s.map rowKey).Nodup) : ((upsertRow s r).map rowKey).Nodup := by
  rw [upsertRow]
  by_cases hany : (s.any fun x => decide (rowKey x = rowKey r)) = true
  · rw [if_pos hany]
    have hmaps : (s.map fun x => if rowKey x = rowKey r then r else x).map rowKey
        = s.map rowKey := by
      rw [List.map_map]
      refine List.map_congr_left ?_
      intro x _
      by_cases hk : rowKey x = rowKey r
      · simp [Function.comp, hk]
      · simp [Function.comp, hk]
    rw [hmaps]
    exact h
  · rw [if_neg hany]
    rw [Bool.not_eq_true, List.any_eq_false] at hany
    rw [List.map_append]
    refine List.Nodup.append h (by simp) ?_
    intro a ha hb
    have hae : a = rowKey r := by simpa using hb
    subst hae
    obtain ⟨x, hx, hkx⟩ := List.mem_map.mp ha
    have hxk : rowKey x ≠ rowKey r := by simpa using hany x hx
    exact hxk hkx

theorem nodup_rowKey_applyAll (k : CommitKey) (M : List AttendanceDecision)
    (s : List Row) (h : (s.map rowKey).Nodup) :
    ((applyAll k M s).map rowKey).Nodup := by
  induction M generalizing s with
  | nil => exact h
  | cons d M ih =>
    rw [applyAll_cons]
    exact ih _ (nodup_rowKey_upsertRow s _ h)

theorem commit_foldl_spec (o : String → Option FailReason) (k : CommitKey)
    (L : List AttendanceDecision) (res : CommitResult) (s : List Row) :
    L.foldl (commitStep o k) (res, s)
      = ({ succeeded := res.succeeded
             ++ (L.filter fun d => (o d.studentId).isNone).map
                  AttendanceDecision.studentId,
           failed := res.failed
             ++ L.filterMap fun d =>
                  match o d.studentId with
                  | some r => some (d.studentId, r)
                  | none => none },
         applyAll k (L.filter fun d => (o d.studentId).isNone) s) := by
  induction L generalizing res s with
  | nil => simp [applyAll]
  | cons d L ih =>
    rw [List.foldl_cons]
    cases h : o d.studentId with
    | none =>
      simp only [commitStep, h]
      rw [ih]
      simp [List.filter_cons, List.filterMap_cons, h, applyAll_cons,
        List.append_assoc]
    | some r =>
      simp only [commitStep, h]
      rw [ih]
      simp [List.filter_cons, List.filterMap_cons, h, List.append_assoc]

theorem commit_spec (o : String → Option FailReason) (k : CommitKey)
    (L : List AttendanceDecision) (s : List Row) :
    commit o L k s
      = ({ succeeded := (L.filter fun d => (o d.studentId).isNone).map
             AttendanceDecision.studentId,
           failed := L.filterMap fun d =>
             match o d.studentId with
             | some r => some (d.studentId, r)
             | none => none },
         applyAll k (L.filter fun d => (o d.studentId).isNone) s) := by
  rw [commit, commit_foldl_spec]
  simp

/-- Claim C2: commit is idempotent for a deterministic backing store:
running it a second time with the identical decision list and key yields
the same persisted state and the identical commit result (succeeded and
failed lists), and the store keeps one row per upsert key throughout. -/
theorem commit_idempotent (o : String → Option FailReason)
    (decisions : List AttendanceDecision) (k : CommitKey) (store : List Row)
    (hnd : (decisions.map AttendanceDecision.studentId).Nodup)
    (hstore : (store.map rowKey).Nodup) :
    (commit o decisions k (commit o decisions k store).2).2
      = (commit o decisions k store).2 ∧
    (commit o decisions k (commit o decisions k store).2).1
      = (commit o decisions k store).1 ∧
    ((commit o decisions k store).2.map rowKey).Nodup := by
  have hM : ((decisions.filter fun d => (o d.studentId).isNone).map
      AttendanceDecision.studentId).Nodup :=
    List.Nodup.sublist
      (List.Sublist.map AttendanceDecision.studentId
        (List.filter_sublist decisions)) hnd
  refine ⟨?_, ?_, ?_⟩
  · simp only [commit_spec]
    exact applyAll_idem k _ store hM
  · simp only [commit_spec]
  · simp only [commit_spec]
    exact nodup_rowKey_applyAll k _ store hstore

/-- Witness for C2: two decisions committed twice into an empty store. -/
theorem commit_idempotent_witness :
    (commit (fun _ => none) [sampleDecisionA, sampleDecisionB] sampleKey
        (commit (fun _ => none) [sampleDecisionA, sampleDecisionB]
          sampleKey []).2).2
      = (commit (fun _ => none) [sampleDecisionA, sampleDecisionB]
          sampleKey []).2 ∧
    (commit (fun _ => none) [sampleDecisionA, sampleDecisionB] sampleKey
        (commit (fun _ => none) [sampleDecisionA, sampleDecisionB]
          sampleKey []).2).1
      = (commit (fun _ => none) [sampleDecisionA, sampleDecisionB]
          sampleKey []).1 ∧
    ((commit (fun _ => none) [sampleDecisionA, sampleDecisionB]
        sampleKey []).2.map rowKey).Nodup :=
  commit_idempotent (fun _ => none) [sampleDecisionA, sampleDecisionB]
    sampleKey []
    (by simp [sampleDecisionA, sampleDecisionB])
    (by simp)

theorem filter_rejectOnly (sid : String) (L : List AttendanceDecision) :
    (L.filter fun d => (rejectOnly sid d.studentId).isNone)
      = L.filter fun d => !(d.studentId == sid) := by
  refine List.filter_congr ?_
  intro d _
  by_cases h : d.studentId = sid <;> simp [rejectOnly, h]

theorem filterMap_rejectOnly (sid : String) (L : List AttendanceDecision)
    (hnd : (L.map AttendanceDecision.studentId).Nodup)
    (hmem : sid ∈ L.map AttendanceDecision.studentId) :
    (L.filterMap fun d =>
        match rejectOnly sid d.studentId with
        | some r => some (d.studentId, r)
        | none => none)
      = [(sid, FailReason.rejected)] := by
  induction L with
  | nil => simp at hmem
  | cons d L ih =>
    rw [List.map_cons, List.nodup_cons] at hnd
    rw [List.map_cons] at hmem
    simp only [List.filterMap_cons]
    by_cases h : d.studentId = sid
    · have hrest : (L.filterMap fun d2 =>
          match rejectOnly sid d2.studentId with
          | some r => some (d2.studentId, r)
          | none => none) = [] := by
        rw [List.filterMap_eq_nil_iff]
        intro d2 hd2
        have hne : d2.studentId ≠ sid := by
          intro he
          apply hnd.1
          rw [h, ← he]
          exact List.mem_map_of_mem AttendanceDecision.studentId hd2
        simp [rejectOnly, hne]
      have hhead : (match rejectOnly sid d.studentId with
          | some r => some (d.studentId, r)
          | none => none)
          = some (sid, FailReason.rejected) := by
        simp [rejectOnly, h]
      rw [hhead]
      show (sid, FailReason.rejected) :: (L.filterMap fun d2 =>
          match rejectOnly sid d2.studentId with
          | some r => some (d2.studentId, r)
          | none => none) = [(sid, FailReason.rejected)]
      rw [hrest]
    · have hmem2 : sid ∈ L.map AttendanceDecision.studentId := by
        rcases List.mem_cons.mp hmem with he | hm
        · exact absurd he.symm h
        · exact hm
      have hhead : (match rejectOnly sid d.studentId with
          | some r => some (d.studentId, r)
          | none => none) = none := by
        simp [rejectOnly, h]
      rw [hhead]
      show (L.filterMap fun d2 =>
          match rejectOnly sid d2.studentId with
          | some r => some (d2.studentId, r)
          | none => none) = [(sid, FailReason.rejected)]
      exact ih hnd.2 hmem2

/-- Claim C3: commit isolates per-student failures: with a backing store
that rejects exactly one student id, every other decision is still
attempted and written through the upsert, the commit result lists exactly
the other student ids in succeeded, and failed holds exactly the rejected
student id with reason Rejected. -/
theorem commit_partial_failure_isolation (decisions : List AttendanceDecision)
    (k : CommitKey) (store : List Row) (sid : String)
    (hnd : (decisions.map AttendanceDecision.studentId).Nodup)
    (hmem : sid ∈ decisions.map AttendanceDecision.studentId) :
    (commit (rejectOnly sid) decisions k store).1.succeeded
      = (decisions.map AttendanceDecision.studentId).filter
          (fun x => !(x == sid)) ∧
    (commit (rejectOnly sid) decisions k store).1.failed
      = [(sid, FailReason.rejected)] ∧
    (commit (rejectOnly sid) decisions k store).2
      = applyAll k (decisions.filter fun d => !(d.studentId == sid)) store := by
  rw [commit_spec]
  refine ⟨?_, ?_, ?_⟩
  · show ((decisions.filter fun d => (rejectOnly sid d.studentId).isNone).map
        AttendanceDecision.studentId)
      = (decisions.map AttendanceDecision.studentId).filter
          (fun x => !(x == sid))
    rw [filter_rejectOnly, List.filter_map]
    rfl
  · exact filterMap_rejectOnly sid decisions hnd hmem
  · show applyAll k
        (decisions.filter fun d => (rejectOnly sid d.studentId).isNone) store
      = applyAll k (decisions.filter fun d => !(d.studentId == sid)) store
    rw [filter_rejectOnly]

/-- Witness for C3: three decisions with the middle student rejected; the
other two succeed and are written. -/
theorem commit_partial_failure_isolation_witness :
    (commit (rejectOnly "24DIT002")
        [sampleDecisionA, sampleDecisionB, sampleDecisionC] sampleKey
        []).1.succeeded
      = ([sampleDecisionA, sampleDecisionB, sampleDecisionC].map
          AttendanceDecision.studentId).filter (fun x => !(x == "24DIT002")) ∧
    (commit (rejectOnly "24DIT002")
        [sampleDecisionA, sampleDecisionB, sampleDecisionC] sampleKey
        []).1.failed
      = [("24DIT002", FailReason.rejected)] ∧
    (commit (rejectOnly "24DIT002")
        [sampleDecisionA, sampleDecisionB, sampleDecisionC] sampleKey []).2
      = applyAll sampleKey
          ([sampleDecisionA, sampleDecisionB, sampleDecisionC].filter
            fun d => !(d.studentId == "24DIT002")) [] :=
  commit_partial_failure_isolation
    [sampleDecisionA, sampleDecisionB, sampleDecisionC] sampleKey []
    "24DIT002"
    (by simp [sampleDecisionA, sampleDecisionB, sampleDecisionC])
    (by simp [sampleDecisionA, sampleDecisionB, sampleDecisionC])
